import Mathlib

/-!
Shallow embedding of the spaced-repetition scheduling engine of the
`eigo` flashcard application, together with theorems checking the
natural-language specification against the code.

Timestamps, durations and multipliers are JavaScript numbers in the
source; they are modelled here as rationals (`ℚ`).  Card, deck and log
identifiers are strings.  The embedded functions mirror the source
modules:

* `calculateNextReviewDate`, `calculateSuccessRate`,
  `calculateTodayCards` from the spaced-repetition module
  (`utils/spaced-repetition`).  `Date.now()` and the local-midnight
  computation are determinized into explicit parameters.
* `handleResponse` and `isSessionComplete` from the `useDeck` session
  hook.  React state updates become a pure function on a
  `SessionState` record; the boolean result of `LogStorage.save`
  (which catches all errors internally and never throws) becomes the
  explicit parameter `saveOk`.
-/

namespace Eigo

/-- The five response qualities, `ResponseType` in `types`. -/
inductive ResponseType where
  | wrong
  | again
  | hard
  | correct
  | easy
deriving DecidableEq, Repr

/-- A study-history record, `StudyLog` in `types`. -/
structure StudyLog where
  id : String
  cardId : String
  deckId : String
  studiedAt : ℚ
  responseTime : ℚ
  responseType : ResponseType
  nextReviewDate : ℚ
deriving DecidableEq, Repr

/-- `DEFAULT_INTERVALS` of the spaced-repetition module (milliseconds). -/
def DEFAULT_INTERVALS : ResponseType → ℚ
  | .wrong => 1000 * 60 * 60
  | .again => 1000 * 60 * 60 * 6
  | .hard => 1000 * 60 * 60 * 24
  | .correct => 1000 * 60 * 60 * 24 * 3
  | .easy => 1000 * 60 * 60 * 24 * 7

/-- `DEFAULT_MULTIPLIERS` of the spaced-repetition module. -/
def DEFAULT_MULTIPLIERS : ResponseType → ℚ
  | .wrong => 11 / 10
  | .again => 12 / 10
  | .hard => 15 / 10
  | .correct => 2
  | .easy => 25 / 10

/-- `EASE_FACTORS` of the spaced-repetition module (0–5 scale). -/
def EASE_FACTORS : ResponseType → ℚ
  | .wrong => 0
  | .again => 1
  | .hard => 2
  | .correct => 3
  | .easy => 5

/-- The hard ceiling `MAX_INTERVAL` (180 days in milliseconds). -/
def MAX_INTERVAL : ℚ := 1000 * 60 * 60 * 24 * 180

/-- One week in milliseconds, the lateness threshold of the early/late
multiplier adjustment. -/
def WEEK_MS : ℚ := 1000 * 60 * 60 * 24 * 7

/-- JavaScript `Math.min` on two (non-NaN) numbers. -/
def jsMin (a b : ℚ) : ℚ := if a ≤ b then a else b

/-- JavaScript `Math.max` on two (non-NaN) numbers. -/
def jsMax (a b : ℚ) : ℚ := if a ≤ b then b else a

/-- Whether a log's response counts towards the consecutive-correct
streak (`CORRECT` or `EASY`). -/
def isCorrectOrEasy (log : StudyLog) : Bool :=
  match log.responseType with
  | .correct => true
  | .easy => true
  | _ => false

/-- The `consecutiveCorrect` loop of `calculateNextReviewDate`: walk
the card's logs in the given order and count the initial run of
`CORRECT`/`EASY` responses, stopping at the first other response. -/
def consecutiveCorrect (cardLogs : List StudyLog) : ℕ :=
  (cardLogs.takeWhile isCorrectOrEasy).length

/-- The multiplier-and-interval computation of `calculateNextReviewDate`
for a non-empty filtered history, as a function of the first matching
log (`lastLog = cardLogs[0]`) and the consecutive-correct count. -/
def intervalFromLast (now : ℚ) (responseType : ResponseType)
    (lastLog : StudyLog) (cc : ℕ)
    (intervals multipliers : ResponseType → ℚ) : ℚ :=
  let adjustedMultiplier := multipliers responseType
  let scheduledReviewDate := lastLog.nextReviewDate
  let adjustedMultiplier :=
    if now < scheduledReviewDate then adjustedMultiplier * (9 / 10)
    else if now > scheduledReviewDate + WEEK_MS then adjustedMultiplier * (7 / 10)
    else adjustedMultiplier
  let adjustedMultiplier :=
    if cc > 0 then adjustedMultiplier * (1 + (cc : ℚ) * (1 / 10))
    else adjustedMultiplier
  let previousInterval := lastLog.nextReviewDate - lastLog.studiedAt
  if responseType = ResponseType.wrong then intervals ResponseType.wrong
  else jsMax (previousInterval * adjustedMultiplier) (intervals responseType)

/-- `calculateNextReviewDate` of the spaced-repetition module.
`Date.now()` is the explicit parameter `now`.  The source reads
`cardLogs[0]` as `lastLog` after filtering `previousLogs` by `cardId`;
the unused `daysSinceLastReview` computation is omitted.  The result is
`now` plus the computed interval, capped at `MAX_INTERVAL`. -/
def calculateNextReviewDate (now : ℚ) (cardId : String)
    (responseType : ResponseType) (previousLogs : List StudyLog)
    (intervals multipliers : ResponseType → ℚ) : ℚ :=
  let cardLogs := previousLogs.filter (fun log => log.cardId == cardId)
  let interval :=
    match cardLogs with
    | [] => intervals responseType
    | lastLog :: _ =>
        intervalFromLast now responseType lastLog
          (consecutiveCorrect cardLogs) intervals multipliers
  now + jsMin interval MAX_INTERVAL

/-- `calculateSuccessRate` of the spaced-repetition module: base score
from the ease factor, time scaling via an `if / else if` chain, then
clamped to 0–100. -/
def calculateSuccessRate (responseType : ResponseType)
    (responseTime : ℚ) : ℚ :=
  let baseFactor := EASE_FACTORS responseType
  let timeFactor : ℚ :=
    if responseTime > 10000 then 9 / 10
    else if responseTime > 20000 then 7 / 10
    else 1
  let successRate := baseFactor / 5 * 100 * timeFactor
  jsMax 0 (jsMin 100 successRate)

/-- JavaScript `array.slice(0, n)` for an integer `n`: a non-negative
end index takes the first `n` elements, a negative end index counts
from the end of the array (`max(length + n, 0)` elements). -/
def jsSlice (l : List String) (n : ℤ) : List String :=
  if 0 ≤ n then l.take n.toNat else l.take ((l.length : ℤ) + n).toNat

/-- First-occurrence deduplication, the order produced by
`Array.from(new Set(...))` in JavaScript: `seen` collects the elements
already emitted. -/
def dedupFirstAux (seen : List String) : List String → List String
  | [] => []
  | a :: l =>
      if a ∈ seen then dedupFirstAux seen l
      else a :: dedupFirstAux (a :: seen) l

/-- `Array.from(new Set(l))`: keep the first occurrence of each
element, in order. -/
def dedupFirst (l : List String) : List String :=
  dedupFirstAux [] l

/-- Whether some log of `cardId` was recorded inside today's window
`[todayStart, tomorrowStart)`; the inner `todayLogs.length === 0` test
of `calculateTodayCards`, negated. -/
def studiedToday (todayStart tomorrowStart : ℚ) (logs : List StudyLog)
    (cardId : String) : Bool :=
  logs.any (fun l =>
    l.cardId == cardId && decide (todayStart ≤ l.studiedAt) &&
      decide (l.studiedAt < tomorrowStart))

/-- `calculateTodayCards` of the spaced-repetition module.  The
`Date.now()` call and the local-midnight window it derives are
determinized into the parameters `now`, `todayStart`, `tomorrowStart`.
Returns `(newCardIds, reviewCardIds)`. -/
def calculateTodayCards (now todayStart tomorrowStart : ℚ)
    (logs : List StudyLog) (newCardsPerDay reviewCardsPerDay : ℤ)
    (allCardIds : List String) : List String × List String :=
  let newCardIds := allCardIds.filter
    (fun id => !(logs.any (fun log => log.cardId == id)))
  let reviewCardIds := dedupFirst
    (((logs.filter (fun log => decide (log.nextReviewDate ≤ now))).filter
        (fun log => !(studiedToday todayStart tomorrowStart logs log.cardId))).map
      (fun log => log.cardId))
  (jsSlice newCardIds newCardsPerDay, jsSlice reviewCardIds reviewCardsPerDay)

/-- The `reviewIntervals` block of `UserSettings`: per-response base
intervals in minutes and per-response multipliers. -/
structure ReviewIntervals where
  wrong : ℚ
  again : ℚ
  hard : ℚ
  correct : ℚ
  easy : ℚ
  wrongMultiplier : ℚ
  againMultiplier : ℚ
  hardMultiplier : ℚ
  correctMultiplier : ℚ
  easyMultiplier : ℚ
deriving DecidableEq, Repr

/-- The intervals table `handleResponse` passes to
`calculateNextReviewDate`: each configured minute count times
`60 * 1000`. -/
def ReviewIntervals.baseMs (ri : ReviewIntervals) : ResponseType → ℚ
  | .wrong => ri.wrong * 60 * 1000
  | .again => ri.again * 60 * 1000
  | .hard => ri.hard * 60 * 1000
  | .correct => ri.correct * 60 * 1000
  | .easy => ri.easy * 60 * 1000

/-- The multipliers table `handleResponse` passes to
`calculateNextReviewDate`. -/
def ReviewIntervals.mult (ri : ReviewIntervals) : ResponseType → ℚ
  | .wrong => ri.wrongMultiplier
  | .again => ri.againMultiplier
  | .hard => ri.hardMultiplier
  | .correct => ri.correctMultiplier
  | .easy => ri.easyMultiplier

/-- The `reviewIntervals` of `DEFAULT_USER_SETTINGS` in the storage
module. -/
def defaultReviewIntervals : ReviewIntervals where
  wrong := 60
  again := 360
  hard := 1440
  correct := 4320
  easy := 10080
  wrongMultiplier := 11 / 10
  againMultiplier := 12 / 10
  hardMultiplier := 15 / 10
  correctMultiplier := 2
  easyMultiplier := 25 / 10

/-- The `progress` state of the `useDeck` hook. -/
structure Progress where
  completed : ℕ
  total : ℕ
deriving DecidableEq, Repr

/-- The `sessionStats` state of the `useDeck` hook. -/
structure SessionStats where
  correct : ℕ
  incorrect : ℕ
  again : ℕ
  hard : ℕ
  easy : ℕ
deriving DecidableEq, Repr

/-- The session-relevant state of the `useDeck` hook.  Cards are
tracked by id; `deck` carries the loaded deck's id and `settings` the
loaded `reviewIntervals` configuration, each `none` while unloaded
(the guard `if (!currentCard || !deck || !settings) return`). -/
structure SessionState where
  deck : Option String
  settings : Option ReviewIntervals
  studyCards : List String
  currentCardIndex : ℕ
  currentCard : Option String
  logs : List StudyLog
  progress : Progress
  sessionStats : SessionStats
deriving DecidableEq, Repr

/-- The `setSessionStats` switch of `handleResponse`: bump the counter
of the given response type (`WRONG` increments `incorrect`). -/
def updateStats (s : SessionStats) : ResponseType → SessionStats
  | .correct => { s with correct := s.correct + 1 }
  | .wrong => { s with incorrect := s.incorrect + 1 }
  | .again => { s with again := s.again + 1 }
  | .hard => { s with hard := s.hard + 1 }
  | .easy => { s with easy := s.easy + 1 }

/-- `handleResponse` of the `useDeck` hook (the spec's `respond()`).
`now` stands for `Date.now()`, `newLogId` for the generated UUID, and
`saveOk` for the boolean result of `await LogStorage.save(studyLog)` —
`LogStorage.save` catches all errors internally and returns `false` on
failure, and `handleResponse` discards that result, so the remaining
state updates run unconditionally.  Without a current card, deck and
settings the call returns the state unchanged. -/
def handleResponse (now : ℚ) (newLogId : String) (saveOk : Bool)
    (responseType : ResponseType) (responseTime : ℚ)
    (s : SessionState) : SessionState :=
  match s.currentCard, s.deck, s.settings with
  | some card, some deckId, some ri =>
      let cardLogs := s.logs.filter (fun log => log.cardId == card)
      let nextReviewDate :=
        calculateNextReviewDate now card responseType cardLogs
          ri.baseMs ri.mult
      let studyLog : StudyLog :=
        { id := newLogId, cardId := card, deckId := deckId,
          studiedAt := now, responseTime := responseTime,
          responseType := responseType, nextReviewDate := nextReviewDate }
      let _ := saveOk
      let logs := s.logs ++ [studyLog]
      let sessionStats := updateStats s.sessionStats responseType
      let nextIndex := s.currentCardIndex + 1
      let progress :=
        { s.progress with completed := s.progress.completed + 1 }
      let currentCard := s.studyCards[nextIndex]?
      { s with logs := logs, sessionStats := sessionStats,
               currentCardIndex := nextIndex, progress := progress,
               currentCard := currentCard }
  | _, _, _ => s

/-- The `isSessionComplete` value returned by `useDeck`:
`progress.completed === progress.total && progress.total > 0`. -/
def isSessionComplete (p : Progress) : Bool :=
  p.completed == p.total && decide (0 < p.total)

/-! Concrete inputs used by counterexamples and witnesses. -/

/-- A log of card `"a"`: oldest, response `WRONG`, previous interval 10. -/
def logA : StudyLog := ⟨"A", "a", "d", 0, 0, .wrong, 10⟩

/-- A log of card `"a"`: newer than `logA`, previous interval 2. -/
def logB : StudyLog := ⟨"B", "a", "d", 1, 0, .wrong, 3⟩

/-- A log of card `"a"`: same tail position as `logB` but different data. -/
def logC : StudyLog := ⟨"C", "a", "d", 2, 0, .hard, 4⟩

/-- An old log of card `"a"` whose next review date (5) has passed. -/
def logOldDue : StudyLog := ⟨"L1", "a", "d", 0, 0, .correct, 5⟩

/-- The most recent log of card `"a"`; its next review date is far in
the future. -/
def logNewFuture : StudyLog := ⟨"L2", "a", "d", 10, 0, .easy, 999999999⟩

/-- A log of card `"a"` with a one-millisecond previous interval. -/
def logShort : StudyLog := ⟨"L9", "a", "d", 0, 0, .wrong, 1⟩

/-- A loaded mid-session state: card `"a"` is current, card `"b"` next,
no logs yet, default interval configuration. -/
def exampleState : SessionState where
  deck := some "d"
  settings := some defaultReviewIntervals
  studyCards := ["a", "b"]
  currentCardIndex := 0
  currentCard := some "a"
  logs := []
  progress := ⟨0, 2⟩
  sessionStats := ⟨0, 0, 0, 0, 0⟩

/-! Helper lemmas. -/

theorem jsMin_eq_min (a b : ℚ) : jsMin a b = min a b := (min_def a b).symm

theorem jsMax_eq_max (a b : ℚ) : jsMax a b = max a b := (max_def a b).symm

theorem jsSlice_subset (l : List String) (n : ℤ) : jsSlice l n ⊆ l := by
  unfold jsSlice
  split <;> exact List.take_subset _ _

theorem jsSlice_length_le (l : List String) (n : ℤ) (hn : 0 ≤ n) :
    ((jsSlice l n).length : ℤ) ≤ n := by
  unfold jsSlice
  rw [if_pos hn, List.length_take]
  calc ((min n.toNat l.length : ℕ) : ℤ) ≤ (n.toNat : ℤ) := by
        exact_mod_cast Nat.min_le_left _ _
    _ = n := Int.toNat_of_nonneg hn

theorem jsSlice_zero (l : List String) : jsSlice l 0 = [] := by
  simp [jsSlice]

theorem mem_dedupFirstAux {a : String} {seen l : List String}
    (h : a ∈ dedupFirstAux seen l) : a ∈ l := by
  induction l generalizing seen with
  | nil => simp [dedupFirstAux] at h
  | cons b l ih =>
      rw [dedupFirstAux] at h
      by_cases hb : b ∈ seen
      · rw [if_pos hb] at h
        exact List.mem_cons_of_mem b (ih h)
      · rw [if_neg hb] at h
        rcases List.mem_cons.mp h with h | h
        · exact h ▸ List.mem_cons_self a l
        · exact List.mem_cons_of_mem b (ih h)

theorem mem_dedupFirst {a : String} {l : List String}
    (h : a ∈ dedupFirst l) : a ∈ l :=
  mem_dedupFirstAux h

/-! Claim theorems. -/

/-- C5 counterexample: at `responseTime = 25000 ms > 20s` the code
returns the 0.9-scaled score 90, not the 0.7-scaled score 70 the claim
demands, because the `responseTime > 10000` branch is taken first and
the `else if (responseTime > 20000)` branch is unreachable. -/
theorem successRate_over20s_cex :
    calculateSuccessRate .easy 25000 = 90 ∧
      calculateSuccessRate .easy 25000 ≠ 70 := by
  have h : calculateSuccessRate .easy 25000 = 90 := by
    norm_num [calculateSuccessRate, EASE_FACTORS, jsMax, jsMin]
  exact ⟨h, by rw [h]; norm_num⟩

/-- C5 amended: for every response type and every response time over
20 s (hence over 10 s), `calculateSuccessRate` applies the 0.9 time
factor — the 0.7 factor of the shadowed 20-second branch never
applies. -/
theorem successRate_over20s (responseType : ResponseType)
    (responseTime : ℚ) (h : 20000 < responseTime) :
    calculateSuccessRate responseType responseTime =
      jsMax 0 (jsMin 100 (EASE_FACTORS responseType / 5 * 100 * (9 / 10))) := by
  have h10 : (10000 : ℚ) < responseTime := by linarith
  simp only [calculateSuccessRate, gt_iff_lt, if_pos h10]

/-- C5 amended, witness at `EASY`, 25 s. -/
theorem successRate_over20s_witness :
    calculateSuccessRate .easy 25000 =
      jsMax 0 (jsMin 100 (EASE_FACTORS .easy / 5 * 100 * (9 / 10))) :=
  successRate_over20s .easy 25000 (by norm_num)

/-- C6 counterexample: with a zero-total progress the hook reports the
session as NOT complete (`isSessionComplete = false`), contradicting
the claim that an empty queue is treated as immediately complete. -/
theorem isSessionComplete_zeroTotal_cex :
    isSessionComplete ⟨0, 0⟩ = false := by decide

/-- C6 amended: whenever the session's total is zero — in particular
when the computed study queue is empty — `isSessionComplete` is
`false`: the code requires `progress.total > 0`, so a zero-total
session is reported as not complete. -/
theorem isSessionComplete_zeroTotal (p : Progress) (h : p.total = 0) :
    isSessionComplete p = false := by
  simp [isSessionComplete, h]

/-- C6 amended, witness at the empty-queue progress. -/
theorem isSessionComplete_zeroTotal_witness :
    isSessionComplete ⟨0, 0⟩ = false :=
  isSessionComplete_zeroTotal ⟨0, 0⟩ rfl

/-- C4 counterexample: with three never-studied cards and
`newCardsPerDay = -1`, JavaScript `slice(0, -1)` keeps all but the
last element, so `newCardIds` has two entries — neither empty nor of
length at most the cap. -/
theorem todayCards_negCap_cex :
    (calculateTodayCards 1000 0 86400000 [] (-1) 0 ["a", "b", "c"]).1 =
        ["a", "b"] ∧
      ¬(((calculateTodayCards 1000 0 86400000 [] (-1) 0
          ["a", "b", "c"]).1.length : ℤ) ≤ -1) := by
  constructor
  · decide
  · decide

/-- C4 amended: for non-negative caps both lists respect their caps
(`len(newCardIds) ≤ newCardsPerDay`, `len(reviewCardIds) ≤
reviewCardsPerDay`, a cap of 0 giving the empty list); a negative cap
is passed to `slice` as a negative end index, which drops that many
elements from the end of the candidate list instead of yielding the
empty list. -/
theorem todayCards_caps (now todayStart tomorrowStart : ℚ)
    (logs : List StudyLog) (newCardsPerDay reviewCardsPerDay : ℤ)
    (allCardIds : List String) (hn : 0 ≤ newCardsPerDay)
    (hr : 0 ≤ reviewCardsPerDay) :
    (((calculateTodayCards now todayStart tomorrowStart logs
          newCardsPerDay reviewCardsPerDay allCardIds).1.length : ℤ) ≤
        newCardsPerDay ∧
      ((calculateTodayCards now todayStart tomorrowStart logs
          newCardsPerDay reviewCardsPerDay allCardIds).2.length : ℤ) ≤
        reviewCardsPerDay) ∧
      (newCardsPerDay = 0 →
        (calculateTodayCards now todayStart tomorrowStart logs
          newCardsPerDay reviewCardsPerDay allCardIds).1 = []) ∧
      (reviewCardsPerDay = 0 →
        (calculateTodayCards now todayStart tomorrowStart logs
          newCardsPerDay reviewCardsPerDay allCardIds).2 = []) := by
  refine ⟨⟨jsSlice_length_le _ _ hn, jsSlice_length_le _ _ hr⟩, ?_, ?_⟩
  · intro h
    simpa [calculateTodayCards, h] using jsSlice_zero _
  · intro h
    simpa [calculateTodayCards, h] using jsSlice_zero _

/-- C4 amended, witness: one card, no logs, caps 0. -/
theorem todayCards_caps_witness :
    (((calculateTodayCards 1000 0 86400000 [] 0 0 ["a"]).1.length : ℤ) ≤ 0 ∧
      ((calculateTodayCards 1000 0 86400000 [] 0 0 ["a"]).2.length : ℤ) ≤ 0) ∧
      ((0 : ℤ) = 0 →
        (calculateTodayCards 1000 0 86400000 [] 0 0 ["a"]).1 = []) ∧
      ((0 : ℤ) = 0 →
        (calculateTodayCards 1000 0 86400000 [] 0 0 ["a"]).2 = []) :=
  todayCards_caps 1000 0 86400000 [] 0 0 ["a"] (by norm_num) (by norm_num)

/-- C2 counterexample: card `"a"` has an old log (`logOldDue`,
`nextReviewDate = 5 ≤ now = 1000`) and a most recent log
(`logNewFuture`, `studiedAt = 10`, `nextReviewDate` far beyond `now`),
none within today's window `[500, 86400000)`; the card is still
selected for review, because the selection scans all logs rather than
each card's latest log. -/
theorem todayCards_latestFuture_cex :
    "a" ∈ (calculateTodayCards 1000 500 86400000 [logOldDue, logNewFuture]
        10 10 ["a"]).2 ∧
      logOldDue.studiedAt < logNewFuture.studiedAt ∧
      1000 < logNewFuture.nextReviewDate := by
  refine ⟨by decide, by decide, by decide⟩

/-- C2 amended: a card id appears in `reviewCardIds` only if SOME log
of that card (not necessarily its most recent one) has
`nextReviewDate <= now` and the card has no log recorded within
today's window; a future most recent log does not prevent selection
when an older log is overdue. -/
theorem todayCards_review_mem (now todayStart tomorrowStart : ℚ)
    (logs : List StudyLog) (newCardsPerDay reviewCardsPerDay : ℤ)
    (allCardIds : List String) (cardId : String)
    (h : cardId ∈ (calculateTodayCards now todayStart tomorrowStart logs
      newCardsPerDay reviewCardsPerDay allCardIds).2) :
    ∃ log ∈ logs, log.cardId = cardId ∧ log.nextReviewDate ≤ now ∧
      ∀ l ∈ logs, l.cardId = cardId →
        ¬(todayStart ≤ l.studiedAt ∧ l.studiedAt < tomorrowStart) := by
  simp only [calculateTodayCards] at h
  have h1 := mem_dedupFirst (jsSlice_subset _ _ h)
  obtain ⟨log, hmem, hid⟩ := List.mem_map.mp h1
  rw [List.mem_filter] at hmem
  obtain ⟨hmem1, hToday⟩ := hmem
  rw [List.mem_filter] at hmem1
  obtain ⟨hlogs, hdue⟩ := hmem1
  refine ⟨log, hlogs, hid, of_decide_eq_true hdue, ?_⟩
  intro l hl hlid hwin
  rw [Bool.not_eq_true'] at hToday
  have hfalse : (l.cardId == log.cardId &&
      decide (todayStart ≤ l.studiedAt) &&
      decide (l.studiedAt < tomorrowStart)) = true := by
    simp [hlid, hid, hwin.1, hwin.2]
  have hany : studiedToday todayStart tomorrowStart logs log.cardId = true :=
    List.any_eq_true.mpr ⟨l, hl, hfalse⟩
  rw [hToday] at hany
  exact Bool.false_ne_true hany

/-- C2 amended, witness: a single overdue log of card `"a"` puts `"a"`
into `reviewCardIds`, so some overdue, not-studied-today log exists. -/
theorem todayCards_review_mem_witness :
    ∃ log ∈ [logOldDue], log.cardId = "a" ∧ log.nextReviewDate ≤ 1000 ∧
      ∀ l ∈ [logOldDue], l.cardId = "a" →
        ¬((500 : ℚ) ≤ l.studiedAt ∧ l.studiedAt < 86400000) :=
  todayCards_review_mem 1000 500 86400000 [logOldDue] 10 10 ["a"] "a"
    (by decide)

/-- C3 counterexample: the two orderings of the same two prior logs of
card `"a"` give different results (the code takes `cardLogs[0]` as
`lastLog`, not the log with maximum `studiedAt`), refuting
permutation-invariance; `logA`, the head of the first ordering, has
the smaller `studiedAt`. -/
theorem nextReview_order_cex :
    calculateNextReviewDate 1000000 "a" .correct [logA, logB]
        (fun _ => 1) (fun _ => 2) ≠
      calculateNextReviewDate 1000000 "a" .correct [logB, logA]
        (fun _ => 1) (fun _ => 2) ∧
      logA.studiedAt < logB.studiedAt := by
  have hc : (ResponseType.correct = ResponseType.wrong) = False := by simp
  have e1 : calculateNextReviewDate 1000000 "a" .correct [logA, logB]
      (fun _ => 1) (fun _ => 2) = 1000020 := by
    norm_num [calculateNextReviewDate, intervalFromLast, consecutiveCorrect,
      isCorrectOrEasy, logA, logB, jsMax, jsMin, MAX_INTERVAL, WEEK_MS, hc,
      List.filter, List.takeWhile]
  have e2 : calculateNextReviewDate 1000000 "a" .correct [logB, logA]
      (fun _ => 1) (fun _ => 2) = 1000004 := by
    norm_num [calculateNextReviewDate, intervalFromLast, consecutiveCorrect,
      isCorrectOrEasy, logA, logB, jsMax, jsMin, MAX_INTERVAL, WEEK_MS, hc,
      List.filter, List.takeWhile]
  exact ⟨by rw [e1, e2]; norm_num, by decide⟩

/-- C3 amended: `calculateNextReviewDate` uses as `lastLog` the FIRST
log of `priorLogsForCard`, in the order given, whose `cardId` matches
(the maximum-`studiedAt` log only when the caller passes the logs
newest-first); the result depends only on that first matching log and
on the length of the initial `CORRECT`/`EASY` run of the filtered
list, so it is not invariant under arbitrary permutation. -/
theorem nextReview_firstMatching (now : ℚ) (cardId : String)
    (responseType : ResponseType) (logs1 logs2 : List StudyLog)
    (intervals multipliers : ResponseType → ℚ)
    (h1 : (logs1.filter (fun log => log.cardId == cardId)).head? =
      (logs2.filter (fun log => log.cardId == cardId)).head?)
    (h2 : consecutiveCorrect (logs1.filter (fun log => log.cardId == cardId)) =
      consecutiveCorrect (logs2.filter (fun log => log.cardId == cardId))) :
    calculateNextReviewDate now cardId responseType logs1
        intervals multipliers =
      calculateNextReviewDate now cardId responseType logs2
        intervals multipliers := by
  simp only [calculateNextReviewDate]
  rw [h2]
  cases hA : logs1.filter (fun log => log.cardId == cardId) with
  | nil =>
      cases hB : logs2.filter (fun log => log.cardId == cardId) with
      | nil => rfl
      | cons b l2 => rw [hA, hB] at h1; simp at h1
  | cons a l1 =>
      cases hB : logs2.filter (fun log => log.cardId == cardId) with
      | nil => rw [hA, hB] at h1; simp at h1
      | cons b l2 =>
          rw [hA, hB] at h1
          simp only [List.head?_cons, Option.some.injEq] at h1
          rw [h1]

/-- C3 amended, witness: two histories sharing the first matching log
and the (empty) correct streak give the same result even though their
tails differ. -/
theorem nextReview_firstMatching_witness :
    calculateNextReviewDate 1000000 "a" .correct [logA, logB]
        DEFAULT_INTERVALS DEFAULT_MULTIPLIERS =
      calculateNextReviewDate 1000000 "a" .correct [logA, logC]
        DEFAULT_INTERVALS DEFAULT_MULTIPLIERS :=
  nextReview_firstMatching 1000000 "a" .correct [logA, logB] [logA, logC]
    DEFAULT_INTERVALS DEFAULT_MULTIPLIERS (by decide) (by decide)

/-- C7 confirmed: for a `WRONG` response, whatever the prior-log
history and the multiplier table, the result is exactly
`now + baseInterval[WRONG]` — the multiplier chain has no effect.  (As
for every response, the interval passes through the 6-month ceiling,
so the configured `WRONG` base interval is assumed to be at most
`MAX_INTERVAL`; every realistic configuration, including the default
1 hour, satisfies this.) -/
theorem nextReview_wrong_resets (now : ℚ) (cardId : String)
    (previousLogs : List StudyLog) (intervals multipliers : ResponseType → ℚ)
    (h : intervals .wrong ≤ MAX_INTERVAL) :
    calculateNextReviewDate now cardId .wrong previousLogs
        intervals multipliers =
      now + intervals .wrong := by
  simp only [calculateNextReviewDate]
  cases hA : previousLogs.filter (fun log => log.cardId == cardId) with
  | nil => simp [jsMin, h]
  | cons lastLog rest => simp [intervalFromLast, jsMin, h]

/-- C7 witness: `WRONG` on a card with history, default configuration. -/
theorem nextReview_wrong_resets_witness :
    calculateNextReviewDate 1000000 "a" .wrong [logA, logB]
        DEFAULT_INTERVALS DEFAULT_MULTIPLIERS =
      1000000 + DEFAULT_INTERVALS .wrong :=
  nextReview_wrong_resets 1000000 "a" [logA, logB] DEFAULT_INTERVALS
    DEFAULT_MULTIPLIERS (by norm_num [DEFAULT_INTERVALS, MAX_INTERVAL])

/-- C8 counterexample: with an empty history and a configured base
interval of 360 days (> the 6-month ceiling), the result is
`now + 180 days`, not `now + baseInterval[responseType]`. -/
theorem nextReview_emptyHistory_cap_cex :
    calculateNextReviewDate 0 "a" .easy [] (fun _ => 31104000000)
        (fun _ => 1) = 15552000000 ∧
      (15552000000 : ℚ) ≠ 0 + 31104000000 := by
  constructor
  · norm_num [calculateNextReviewDate, jsMin, MAX_INTERVAL, List.filter]
  · norm_num

/-- C8 amended: with no prior log for the card, the result is exactly
`now + min(baseInterval[responseType], 180 days)` — the base interval
with no multiplier applied when it is within the 6-month ceiling, and
`now + 180 days` when the configured base interval exceeds the
ceiling. -/
theorem nextReview_emptyHistory (now : ℚ) (cardId : String)
    (responseType : ResponseType) (previousLogs : List StudyLog)
    (intervals multipliers : ResponseType → ℚ)
    (h : previousLogs.filter (fun log => log.cardId == cardId) = []) :
    (intervals responseType ≤ MAX_INTERVAL →
      calculateNextReviewDate now cardId responseType previousLogs
        intervals multipliers = now + intervals responseType) ∧
      (MAX_INTERVAL < intervals responseType →
        calculateNextReviewDate now cardId responseType previousLogs
          intervals multipliers = now + MAX_INTERVAL) := by
  constructor
  · intro h'
    simp only [calculateNextReviewDate, h, jsMin, if_pos h']
  · intro h'
    simp only [calculateNextReviewDate, h, jsMin, if_neg (not_le.mpr h')]

/-- C8 amended, witness: empty history, default configuration,
response `EASY`. -/
theorem nextReview_emptyHistory_witness :
    (DEFAULT_INTERVALS .easy ≤ MAX_INTERVAL →
      calculateNextReviewDate 0 "a" .easy [] DEFAULT_INTERVALS
        DEFAULT_MULTIPLIERS = 0 + DEFAULT_INTERVALS .easy) ∧
      (MAX_INTERVAL < DEFAULT_INTERVALS .easy →
        calculateNextReviewDate 0 "a" .easy [] DEFAULT_INTERVALS
          DEFAULT_MULTIPLIERS = 0 + MAX_INTERVAL) :=
  nextReview_emptyHistory 0 "a" .easy [] DEFAULT_INTERVALS
    DEFAULT_MULTIPLIERS rfl

/-- C9 counterexample: a non-`WRONG` response with a configured base
interval of 360 days yields an interval of only 180 days (the 6-month
ceiling), which is less than `baseInterval[responseType]`. -/
theorem nextReview_floor_cex :
    calculateNextReviewDate 10 "a" .correct [logShort]
        (fun _ => 31104000000) (fun _ => 1) = 10 + 15552000000 ∧
      (10 + 15552000000 : ℚ) - 10 < 31104000000 := by
  have hc : (ResponseType.correct = ResponseType.wrong) = False := by simp
  constructor
  · norm_num [calculateNextReviewDate, intervalFromLast, consecutiveCorrect,
      isCorrectOrEasy, logShort, jsMax, jsMin, MAX_INTERVAL, WEEK_MS, hc,
      List.filter, List.takeWhile]
  · norm_num

/-- C9 amended: for every non-`WRONG` response, history and
configuration, the computed interval (result minus `now`) is at least
`min(baseInterval[responseType], 180 days)`: the floor holds up to the
6-month ceiling, which wins when the configured base interval exceeds
it. -/
theorem nextReview_floor (now : ℚ) (cardId : String)
    (responseType : ResponseType) (previousLogs : List StudyLog)
    (intervals multipliers : ResponseType → ℚ)
    (h : responseType ≠ ResponseType.wrong) :
    now + jsMin (intervals responseType) MAX_INTERVAL ≤
      calculateNextReviewDate now cardId responseType previousLogs
        intervals multipliers := by
  simp only [calculateNextReviewDate]
  cases hA : previousLogs.filter (fun log => log.cardId == cardId) with
  | nil => exact le_refl _
  | cons lastLog rest =>
      have hfloor : intervals responseType ≤
          intervalFromLast now responseType lastLog
            (consecutiveCorrect (lastLog :: rest)) intervals multipliers := by
        simp only [intervalFromLast, if_neg h]
        rw [jsMax_eq_max]
        exact le_max_right _ _
      rw [jsMin_eq_min, jsMin_eq_min]
      exact add_le_add_left (min_le_min hfloor (le_refl _)) now

/-- C9 amended, witness: `CORRECT` response on a short-interval
history with the default configuration. -/
theorem nextReview_floor_witness :
    (10 : ℚ) + jsMin (DEFAULT_INTERVALS .correct) MAX_INTERVAL ≤
      calculateNextReviewDate 10 "a" .correct [logShort]
        DEFAULT_INTERVALS DEFAULT_MULTIPLIERS :=
  nextReview_floor 10 "a" .correct [logShort] DEFAULT_INTERVALS
    DEFAULT_MULTIPLIERS (by decide)

/-- Helper: the computed next review date is strictly after `now`
whenever the configured base interval for the response type is
positive, for every history and multiplier table. -/
theorem nextReview_pos (now : ℚ) (cardId : String)
    (responseType : ResponseType) (previousLogs : List StudyLog)
    (intervals multipliers : ResponseType → ℚ)
    (h : 0 < intervals responseType) :
    now < calculateNextReviewDate now cardId responseType previousLogs
      intervals multipliers := by
  have hM : (0 : ℚ) < MAX_INTERVAL := by norm_num [MAX_INTERVAL]
  simp only [calculateNextReviewDate]
  cases hA : previousLogs.filter (fun log => log.cardId == cardId) with
  | nil =>
      have hmin : 0 < jsMin (intervals responseType) MAX_INTERVAL := by
        rw [jsMin_eq_min]
        exact lt_min h hM
      linarith
  | cons lastLog rest =>
      have hI : 0 < intervalFromLast now responseType lastLog
          (consecutiveCorrect (lastLog :: rest)) intervals multipliers := by
        simp only [intervalFromLast]
        by_cases hw : responseType = ResponseType.wrong
        · rw [if_pos hw]
          exact hw ▸ h
        · rw [if_neg hw, jsMax_eq_max]
          exact lt_of_lt_of_le h (le_max_right _ _)
      have hmin : 0 < jsMin (intervalFromLast now responseType lastLog
          (consecutiveCorrect (lastLog :: rest)) intervals multipliers)
            MAX_INTERVAL := by
        rw [jsMin_eq_min]
        exact lt_min hI hM
      linarith

/-- C1 counterexample: in a loaded session with current card `"a"`,
calling `handleResponse` with the persistence result `false` (the
value `LogStorage.save` returns on failure) still advances everything:
the current card changes, the position is incremented, and both the
progress and the session statistics change. -/
theorem respond_saveFailure_cex :
    (handleResponse 0 "L" false .correct 1000 exampleState).currentCard ≠
        exampleState.currentCard ∧
      (handleResponse 0 "L" false .correct 1000 exampleState).currentCardIndex ≠
        exampleState.currentCardIndex ∧
      (handleResponse 0 "L" false .correct 1000 exampleState).progress ≠
        exampleState.progress ∧
      (handleResponse 0 "L" false .correct 1000 exampleState).sessionStats ≠
        exampleState.sessionStats := by
  refine ⟨?_, ?_, ?_, ?_⟩ <;> decide

/-- C1 amended: `handleResponse` ignores the boolean result of
`saveLog` (`LogStorage.save` catches its own errors and returns
`false` instead of throwing), so with a current card the session state
after a failed persist equals the state after a successful one — in
particular the position and progress still advance. -/
theorem respond_saveFailure_advances (now : ℚ) (newLogId : String)
    (responseType : ResponseType) (responseTime : ℚ) (s : SessionState)
    (card : String) (hc : s.currentCard = some card)
    (hd : s.deck.isSome = true) (hs : s.settings.isSome = true) :
    handleResponse now newLogId false responseType responseTime s =
        handleResponse now newLogId true responseType responseTime s ∧
      (handleResponse now newLogId false responseType responseTime
          s).currentCardIndex = s.currentCardIndex + 1 ∧
      (handleResponse now newLogId false responseType responseTime
          s).progress.completed = s.progress.completed + 1 := by
  obtain ⟨d, hd⟩ := Option.isSome_iff_exists.mp hd
  obtain ⟨ri, hs⟩ := Option.isSome_iff_exists.mp hs
  refine ⟨rfl, ?_, ?_⟩ <;> simp [handleResponse, hc, hd, hs]

/-- C1 amended, witness at the example session state. -/
theorem respond_saveFailure_advances_witness :
    handleResponse 0 "L" false .correct 1000 exampleState =
        handleResponse 0 "L" true .correct 1000 exampleState ∧
      (handleResponse 0 "L" false .correct 1000
          exampleState).currentCardIndex =
        exampleState.currentCardIndex + 1 ∧
      (handleResponse 0 "L" false .correct 1000
          exampleState).progress.completed =
        exampleState.progress.completed + 1 :=
  respond_saveFailure_advances 0 "L" .correct 1000 exampleState "a"
    rfl rfl rfl

/-- C10 confirmed: a recorded response appends exactly one log whose
`studiedAt` is the recording instant and whose `nextReviewDate` is
strictly later, for every response type, history and multiplier table,
as long as the configured base interval of the response type is
positive (the default configuration's intervals all are). -/
theorem respond_log_invariant (now : ℚ) (newLogId : String) (saveOk : Bool)
    (responseType : ResponseType) (responseTime : ℚ) (s : SessionState)
    (card deckId : String) (ri : ReviewIntervals)
    (hc : s.currentCard = some card) (hd : s.deck = some deckId)
    (hs : s.settings = some ri) (hpos : 0 < ri.baseMs responseType) :
    ∃ log, (handleResponse now newLogId saveOk responseType responseTime
        s).logs = s.logs ++ [log] ∧
      log.studiedAt = now ∧ log.studiedAt < log.nextReviewDate := by
  refine ⟨{ id := newLogId, cardId := card, deckId := deckId,
            studiedAt := now, responseTime := responseTime,
            responseType := responseType,
            nextReviewDate := calculateNextReviewDate now card responseType
              (s.logs.filter (fun log => log.cardId == card))
              ri.baseMs ri.mult }, ?_, rfl, ?_⟩
  · simp [handleResponse, hc, hd, hs]
  · exact nextReview_pos now card responseType
      (s.logs.filter (fun log => log.cardId == card)) ri.baseMs ri.mult hpos

/-- C10 witness at the example session state, response `CORRECT`. -/
theorem respond_log_invariant_witness :
    ∃ log, (handleResponse 0 "L" true .correct 1000 exampleState).logs =
        exampleState.logs ++ [log] ∧
      log.studiedAt = 0 ∧ log.studiedAt < log.nextReviewDate :=
  respond_log_invariant 0 "L" true .correct 1000 exampleState "a" "d"
    defaultReviewIntervals rfl rfl rfl
    (by norm_num [defaultReviewIntervals, ReviewIntervals.baseMs])

end Eigo
